import Mathlib

/-!
# Verification of the galah honeypot core

Shallow embedding of the galah honeypot's request pipeline
(`server.go` and the `logger` package) together with proofs of the
behavioural properties stated in the specification.

Go strings are modelled as Lean `String`; Go `map` values used as sets
or association tables are modelled as lists of pairs with first-match
lookup (an insert at the front therefore has last-write-wins
semantics).  Go standard-library helpers (`strings.Contains`,
`strings.ReplaceAll`, `strings.ToLower`, `strings.Join`) are re-derived
below as structurally recursive functions so that concrete instances
evaluate inside the kernel.
-/

/-! ## Go string helpers -/

/-- Does `hay` start with `need`?  (Helper for `strContains`.) -/
def charsLeadEq : List Char → List Char → Bool
  | [], _ => true
  | _ :: _, [] => false
  | n :: ns, h :: hs => n == h && charsLeadEq ns hs

/-- Does `need` occur as a contiguous run inside `hay`? -/
def charsContains (hay need : List Char) : Bool :=
  match hay with
  | [] => need.isEmpty
  | _ :: t => charsLeadEq need hay || charsContains t need

/-- Go `strings.Contains(s, sub)`. -/
def strContains (s sub : String) : Bool :=
  charsContains s.data sub.data

/-- Fuelled worker for `strReplaceAll`; the fuel is an upper bound on the
number of characters still to be scanned, so `hay.length` fuel always
suffices.  Replaces every non-overlapping occurrence of `need`,
scanning left to right, exactly as Go `strings.ReplaceAll` does for a
non-empty pattern (the empty-pattern case never arises here: the three
error markers are non-empty literals). -/
def charsReplaceAll : Nat → List Char → List Char → List Char → List Char
  | 0, hay, _, _ => hay
  | fuel + 1, hay, need, repl =>
    match hay with
    | [] => []
    | h :: t =>
      if !need.isEmpty && charsLeadEq need (h :: t) then
        repl ++ charsReplaceAll fuel ((h :: t).drop need.length) need repl
      else
        h :: charsReplaceAll fuel t need repl

/-- Go `strings.ReplaceAll(s, old, new)` for a non-empty `old`. -/
def strReplaceAll (s old new : String) : String :=
  ⟨charsReplaceAll s.data.length s.data old.data new.data⟩

/-- Go `strings.ToLower` (ASCII case folding, which is all the header
names at issue use). -/
def strToLower (s : String) : String :=
  ⟨s.data.map Char.toLower⟩

/-- Go `strings.Join(l, ",")`. -/
def joinComma (l : List String) : String :=
  String.intercalate "," l

/-! ## Header filtering (`server.go`: `ignoreHeaders`, `isExcludedHeader`,
`sendResponse`) -/

/-- `server.go` `ignoreHeaders`: the fixed exclusion set, stored
lower-case.  The first five are standard transport/metadata headers,
the rest are placeholder values the generation backend sometimes
emits as header names. -/
def ignoreHeaders : List String :=
  ["content-length", "content-type", "date", "expires", "last-modified",
   "http", "http/1.0", "http/1.1", "http/1.2", "http/2.0"]

/-- `server.go` `isExcludedHeader`: membership of the lower-cased name in
`ignoreHeaders` (a Go map lookup defaulting to `false`). -/
def isExcludedHeader (headerKey : String) : Bool :=
  ignoreHeaders.contains (strToLower headerKey)

/-- `HTTPResponse` (the synthesized response record parsed from the
generation backend's JSON): headers plus body.  The Go
`map[string]string` of headers is modelled as a list of pairs. -/
structure HTTPResponse where
  Headers : List (String × String)
  Body : String
deriving DecidableEq, Repr

/-- `server.go` `sendResponse`: sets every non-excluded header of the
record on the client response verbatim and writes the body as-is.
The result is the pair (headers actually set, body written). -/
def sendResponse (response : HTTPResponse) : List (String × String) × String :=
  (response.Headers.filter (fun kv => !(isExcludedHeader kv.1)), response.Body)

/-- C2 -- Header filtering: a header of the record is forwarded to the
client iff its name, lower-cased, is not in the fixed exclusion set;
forwarded headers keep their exact name and value; the body is written
as-is; and for the record containing `Content-Type`, `Date` and
`X-Custom`, only `X-Custom` is forwarded. -/
theorem sendResponse_header_filtering :
    (∀ response : HTTPResponse, ∀ kv : String × String,
        (kv ∈ (sendResponse response).1 ↔
          kv ∈ response.Headers ∧ isExcludedHeader kv.1 = false)) ∧
    (∀ response : HTTPResponse, (sendResponse response).2 = response.Body) ∧
    (sendResponse
        ⟨[("Content-Type", "text/html"), ("Date", "Tue, 02 Jan 2024 15:04:05 GMT"),
          ("X-Custom", "v")], "body"⟩).1 = [("X-Custom", "v")] := by
  refine ⟨fun response kv => ?_, fun response => rfl, by decide⟩
  simp [sendResponse, List.mem_filter]

/-! ## Error classification (`logger` package: `errorFields` and the three
marker constants) -/

/-- Marker substring for a generation reply that was not valid JSON. -/
def errorInvalidJSONResponse : String := "invalidJSONResponse"

/-- Marker substring for an empty generation reply. -/
def errorEmptyLLMResponse : String := "emptyLLMResponse"

/-- Marker for any other content-generation failure. -/
def errorContentGeneration : String := "contentGenerationError"

/-- The structured fields `errorFields` returns: the matched error class
(`type`), the message with the marker prefix stripped (`msg`), and the
raw unparseable generation output (`invalidResponse`). -/
structure ErrorFieldsRec where
  type : String
  msg : String
  invalidResponse : String
deriving DecidableEq, Repr

/-- `logger` `errorFields`: inspects the raw error message for the three
marker substrings in priority order (invalid JSON first, then empty
reply, else the generic class), strips `"<marker>: "` from the stored
message, and records the raw response text.  The Go argument `err
error` enters as its message `errMsg = err.Error()`. -/
def errorFields (errMsg resp : String) : ErrorFieldsRec :=
  if strContains errMsg errorInvalidJSONResponse then
    ⟨errorInvalidJSONResponse,
     strReplaceAll errMsg (errorInvalidJSONResponse ++ ": ") "", resp⟩
  else if strContains errMsg errorEmptyLLMResponse then
    ⟨errorEmptyLLMResponse,
     strReplaceAll errMsg (errorEmptyLLMResponse ++ ": ") "", resp⟩
  else
    ⟨errorContentGeneration,
     strReplaceAll errMsg (errorContentGeneration ++ ": ") "", resp⟩

/-- C3 -- Error classification: the three marker substrings are checked in
priority order; the matched class is recorded with the marker prefix
stripped from the stored message and the raw response text kept
alongside; a message containing the invalid-JSON marker yields that
class, and a message containing no marker yields the generic
content-generation class. -/
theorem errorFields_classification :
    ∀ errMsg resp : String,
      (strContains errMsg errorInvalidJSONResponse = true →
        errorFields errMsg resp =
          ⟨errorInvalidJSONResponse,
           strReplaceAll errMsg (errorInvalidJSONResponse ++ ": ") "", resp⟩) ∧
      (strContains errMsg errorInvalidJSONResponse = false →
        strContains errMsg errorEmptyLLMResponse = true →
        errorFields errMsg resp =
          ⟨errorEmptyLLMResponse,
           strReplaceAll errMsg (errorEmptyLLMResponse ++ ": ") "", resp⟩) ∧
      (strContains errMsg errorInvalidJSONResponse = false →
        strContains errMsg errorEmptyLLMResponse = false →
        errorFields errMsg resp =
          ⟨errorContentGeneration,
           strReplaceAll errMsg (errorContentGeneration ++ ": ") "", resp⟩) ∧
      (errorFields errMsg resp).invalidResponse = resp := by
  intro errMsg resp
  refine ⟨fun h1 => ?_, fun h1 h2 => ?_, fun h1 h2 => ?_, ?_⟩
  · simp [errorFields, h1]
  · simp [errorFields, h1, h2]
  · simp [errorFields, h1, h2]
  · by_cases h1 : strContains errMsg errorInvalidJSONResponse <;>
      by_cases h2 : strContains errMsg errorEmptyLLMResponse <;>
      simp [errorFields, h1, h2]

/-- Witness for C3: on the concrete message
`"invalidJSONResponse: llm response is not valid json"` the classifier
returns the invalid-JSON class with the marker prefix stripped, and on
the marker-free message `"connection refused"` it returns the generic
content-generation class with the message unchanged. -/
theorem errorFields_classification_witness :
    errorFields "invalidJSONResponse: llm response is not valid json" "rawtext" =
      ⟨"invalidJSONResponse", "llm response is not valid json", "rawtext"⟩ ∧
    errorFields "connection refused" "" =
      ⟨"contentGenerationError", "connection refused", ""⟩ := by
  constructor
  · have h := (errorFields_classification
      "invalidJSONResponse: llm response is not valid json" "rawtext").1 (by decide)
    rw [h]; decide
  · have h := ((errorFields_classification "connection refused" "").2.2.1
      (by decide) (by decide))
    rw [h]; decide

/-! ## The dispatcher (`server.go` `handleRequest`)

`handleRequest` is embedded as a pure state transformer: the response
cache is threaded explicitly, and each externally visible effect
becomes an element of an action trace.  The collaborators whose bodies
are not part of `server.go` enter as explicit inputs:

* `checkCache` / `getCacheKey` -- per the spec's Response Cache
  contract, `checkCache` looks the request's fingerprint key up in a
  durable key-value store and reports a miss as an error; the already
  computed fingerprint enters as the `key` argument (it is a pure
  function of the request and destination port, so one request keeps
  one key across both the lookup and the store).
* `generateLLMResponse` -- the external Generation Collaborator; its
  outcome for this request enters as `genResult`.
* `json.Unmarshal` into `HTTPResponse` -- the Go standard-library JSON
  decoder, a pure function of the input bytes, enters as `decode`.
* `storeResponse` -- per the spec's cache contract the store either
  succeeds or fails; its outcome enters as `storeOk`.
-/

/-- One externally visible effect of the dispatcher. -/
inductive Act where
  /-- The cache lookup found an entry for the request's key. -/
  | cacheHit : Act
  /-- The cache lookup missed. -/
  | cacheMiss : Act
  /-- A call to the external Generation Collaborator. -/
  | genCall : Act
  /-- A successful write of a generated response into the cache. -/
  | cacheStore (key value : String) : Act
  /-- Modelled from the spec: `storeResponse` (whose body is not part of
  `server.go`) logs a cache-store failure; `handleRequest` itself
  discards the returned error. -/
  | storeFailLog : Act
  /-- The network write of a synthesized ResponseRecord to the client:
  the filtered headers actually set and the body written. -/
  | sendRecord (headers : List (String × String)) (body : String) : Act
  /-- A network write produced by Go's `http.Error(w, msg, code)`, which
  sends status `code` with the message plus a trailing newline as the
  response body. -/
  | errorWrite (status : Nat) (body : String) : Act
  /-- The success event hand-off (`makeEvent` followed by `writeLog`). -/
  | eventLog : Act
deriving DecidableEq, Repr

/-- `http.Error(w, "Internal Server Error", http.StatusInternalServerError)`:
status 500, body `"Internal Server Error\n"`. -/
def internalServerError : Act := .errorWrite 500 "Internal Server Error\n"

/-- The client write performed by `sendResponse` for a parsed record. -/
def sendRecordOf (respData : HTTPResponse) : Act :=
  .sendRecord (sendResponse respData).1 (sendResponse respData).2

/-- The response cache: fingerprint key to serialized response string,
first match wins on lookup. -/
def Cache := List (String × String)

/-- Cache lookup (the spec's `lookup(fingerprint) → record or miss`). -/
def cacheLookup (c : Cache) (key : String) : Option String :=
  match c with
  | [] => none
  | (k, v) :: rest => if k = key then some v else cacheLookup rest key

/-- Cache store (the spec's `store(fingerprint, record)`), last write
wins because lookup takes the first match. -/
def cacheInsert (c : Cache) (key value : String) : Cache :=
  (key, value) :: c

/-- `server.go` `handleRequest`: consult the cache; on a miss call the
Generation Collaborator, on generation failure reply 500 and stop;
otherwise store the generated string (its error discarded); then parse
the serialized record, on parse failure reply 500 and stop; otherwise
send the filtered record and emit the success event.  Returns the
action trace and the cache after the request. -/
def handleRequest (decode : String → Option HTTPResponse) (cache : Cache)
    (key : String) (genResult : Except String String) (storeOk : Bool) :
    List Act × Cache :=
  match cacheLookup cache key with
  | some cached =>
    match decode cached with
    | none => ([.cacheHit, internalServerError], cache)
    | some respData => ([.cacheHit, sendRecordOf respData, .eventLog], cache)
  | none =>
    match genResult with
    | .error _ => ([.cacheMiss, .genCall, internalServerError], cache)
    | .ok responseString =>
      let stored : List Act × Cache :=
        if storeOk then
          ([.cacheStore key responseString], cacheInsert cache key responseString)
        else
          ([.storeFailLog], cache)
      match decode responseString with
      | none =>
        (.cacheMiss :: .genCall :: stored.1 ++ [internalServerError], stored.2)
      | some respData =>
        (.cacheMiss :: .genCall :: stored.1 ++ [sendRecordOf respData, .eventLog],
         stored.2)

/-- Is this action a network write to the client (either a record send
or an `http.Error` reply)? -/
def isClientWrite : Act → Bool
  | .sendRecord _ _ => true
  | .errorWrite _ _ => true
  | _ => false

/-- Is this action the send of a synthesized ResponseRecord? -/
def isRecordWrite : Act → Bool
  | .sendRecord _ _ => true
  | _ => false

/-- Is this action a Generation Collaborator call? -/
def isGenCallAct : Act → Bool
  | .genCall => true
  | _ => false

/-- Is this action a successful cache write? -/
def isCacheWrite : Act → Bool
  | .cacheStore _ _ => true
  | _ => false

/-- Does the request's single decode attempt succeed (on the cached
entry after a hit, or on the freshly generated string after a miss)?
Exactly when it does, a ResponseRecord reaches the client. -/
def pipelineParses (decode : String → Option HTTPResponse) (cache : Cache)
    (key : String) (genResult : Except String String) : Bool :=
  match cacheLookup cache key with
  | some cached => (decode cached).isSome
  | none =>
    match genResult with
    | .error _ => false
    | .ok responseString => (decode responseString).isSome

/-- C1 -- Single response invariant: every run of the dispatcher performs
exactly one network write to the client, at most one cache write, at
most one Generation Collaborator call, and at most one ResponseRecord
send; a ResponseRecord is sent exactly when the single decode attempt
succeeds, and it originates from the cache (after a hit, with no
collaborator call) or from fresh generation (after a miss, with no
hit), never both. -/
theorem handleRequest_single_response :
    ∀ (decode : String → Option HTTPResponse) (cache : Cache) (key : String)
      (genResult : Except String String) (storeOk : Bool),
      (handleRequest decode cache key genResult storeOk).1.countP
          (fun a => isClientWrite a) = 1 ∧
      (handleRequest decode cache key genResult storeOk).1.countP
          (fun a => isCacheWrite a) ≤ 1 ∧
      (handleRequest decode cache key genResult storeOk).1.countP
          (fun a => isGenCallAct a) ≤ 1 ∧
      (handleRequest decode cache key genResult storeOk).1.countP
          (fun a => isRecordWrite a) ≤ 1 ∧
      (pipelineParses decode cache key genResult = true →
        (handleRequest decode cache key genResult storeOk).1.countP
            (fun a => isRecordWrite a) = 1) ∧
      ¬(Act.cacheHit ∈ (handleRequest decode cache key genResult storeOk).1 ∧
        Act.genCall ∈ (handleRequest decode cache key genResult storeOk).1) ∧
      (∀ hs b, Act.sendRecord hs b ∈
            (handleRequest decode cache key genResult storeOk).1 →
        (∃ cached respData, cacheLookup cache key = some cached ∧
            decode cached = some respData ∧
            Act.sendRecord hs b = sendRecordOf respData ∧
            Act.genCall ∉ (handleRequest decode cache key genResult storeOk).1) ∨
        (∃ s respData, cacheLookup cache key = none ∧
            genResult = Except.ok s ∧ decode s = some respData ∧
            Act.sendRecord hs b = sendRecordOf respData ∧
            Act.cacheHit ∉ (handleRequest decode cache key genResult storeOk).1)) := by
  intro decode cache key genResult storeOk
  cases hc : cacheLookup cache key with
  | some cached =>
    cases hd : decode cached with
    | none =>
      simp [handleRequest, hc, hd, pipelineParses, internalServerError,
        isClientWrite, isCacheWrite, isGenCallAct, isRecordWrite,
        List.countP_cons, List.countP_nil]
    | some respData =>
      refine ⟨?_, ?_, ?_, ?_, ?_, ?_, ?_⟩ <;>
        simp [handleRequest, hc, hd, pipelineParses, internalServerError,
          sendRecordOf, isClientWrite, isCacheWrite, isGenCallAct, isRecordWrite,
          List.countP_cons, List.countP_nil]
  | none =>
    cases genResult with
    | error e =>
      simp [handleRequest, hc, pipelineParses, internalServerError,
        isClientWrite, isCacheWrite, isGenCallAct, isRecordWrite,
        List.countP_cons, List.countP_nil]
    | ok responseString =>
      cases hd : decode responseString with
      | none =>
        cases storeOk <;>
          simp [handleRequest, hc, hd, pipelineParses, internalServerError,
            isClientWrite, isCacheWrite, isGenCallAct, isRecordWrite,
            List.countP_cons, List.countP_nil]
      | some respData =>
        cases storeOk <;>
          refine ⟨?_, ?_, ?_, ?_, ?_, ?_, ?_⟩ <;>
            simp [handleRequest, hc, hd, pipelineParses, internalServerError,
              sendRecordOf, isClientWrite, isCacheWrite, isGenCallAct,
              isRecordWrite, List.countP_cons, List.countP_nil]

/-- Witness for C1 at concrete inputs: with a one-entry cache hit whose
entry decodes, the dispatcher sends exactly one ResponseRecord. -/
theorem handleRequest_single_response_witness :
    (handleRequest
        (fun s => if s = "rec" then some ⟨[("Server", "Apache")], "hello"⟩ else none)
        [("k", "rec")] "k" (Except.error "boom") true).1.countP
      (fun a => isRecordWrite a) = 1 :=
  (handleRequest_single_response
      (fun s => if s = "rec" then some ⟨[("Server", "Apache")], "hello"⟩ else none)
      [("k", "rec")] "k" (Except.error "boom") true).2.2.2.2.1 (by decide)

/-- Counterexample for C4: on a request whose cached entry fails to
parse (so the parse step fails), the dispatcher's trace contains no
event emission at all, and the 500 reply it sends carries the
non-empty body `"Internal Server Error\n"` written by `http.Error` --
contradicting both the claimed failure-event emission and the claimed
empty body. -/
theorem handleRequest_failure_claim_cex :
    Act.eventLog ∉
      (handleRequest (fun _ => none) [("k", "not json")] "k"
        (Except.error "e") true).1 ∧
    Act.errorWrite 500 "Internal Server Error\n" ∈
      (handleRequest (fun _ => none) [("k", "not json")] "k"
        (Except.error "e") true).1 ∧
    "Internal Server Error\n" ≠ "" := by
  decide

/-- C4 (amended) -- Failure path: whenever generation or parse fails, the
dispatcher performs exactly one network write to the client, namely
the `http.Error` reply with status 500 and the fixed body
`"Internal Server Error\n"`, and stops: no ResponseRecord is sent and
no event is emitted by the handler. -/
theorem handleRequest_failure_path :
    ∀ (decode : String → Option HTTPResponse) (cache : Cache) (key : String)
      (genResult : Except String String) (storeOk : Bool),
      pipelineParses decode cache key genResult = false →
      internalServerError ∈
          (handleRequest decode cache key genResult storeOk).1 ∧
      (handleRequest decode cache key genResult storeOk).1.countP
          (fun a => isRecordWrite a) = 0 ∧
      Act.eventLog ∉ (handleRequest decode cache key genResult storeOk).1 ∧
      (handleRequest decode cache key genResult storeOk).1.countP
          (fun a => isClientWrite a) = 1 := by
  intro decode cache key genResult storeOk hfail
  cases hc : cacheLookup cache key with
  | some cached =>
    cases hd : decode cached with
    | none =>
      simp [handleRequest, hc, hd, internalServerError, isClientWrite,
        isRecordWrite, List.countP_cons, List.countP_nil]
    | some respData =>
      exfalso
      rw [pipelineParses.eq_def, hc] at hfail
      simp [hd] at hfail
  | none =>
    cases genResult with
    | error e =>
      simp [handleRequest, hc, internalServerError, isClientWrite,
        isRecordWrite, List.countP_cons, List.countP_nil]
    | ok responseString =>
      cases hd : decode responseString with
      | none =>
        cases storeOk <;>
          simp [handleRequest, hc, hd, internalServerError, isClientWrite,
            isRecordWrite, List.countP_cons, List.countP_nil]
      | some respData =>
        exfalso
        rw [pipelineParses.eq_def, hc] at hfail
        simp [hd] at hfail

/-- Witness for C4's amended theorem at a concrete failing input: a
cache miss whose generation call errors. -/
theorem handleRequest_failure_path_witness :
    internalServerError ∈
        (handleRequest (fun _ => none) [] "k" (Except.error "backend down")
          true).1 ∧
    (handleRequest (fun _ => none) [] "k" (Except.error "backend down")
          true).1.countP (fun a => isRecordWrite a) = 0 ∧
    Act.eventLog ∉
        (handleRequest (fun _ => none) [] "k" (Except.error "backend down")
          true).1 ∧
    (handleRequest (fun _ => none) [] "k" (Except.error "backend down")
          true).1.countP (fun a => isClientWrite a) = 1 :=
  handleRequest_failure_path (fun _ => none) [] "k"
    (Except.error "backend down") true (by decide)

/-- C7 -- Cache-store failure is non-fatal: on a miss whose generation
succeeds and parses, even when the cache store fails the dispatcher
still sends the computed ResponseRecord to the client, the (spec
modelled, inside `storeResponse`) failure log is emitted, and the
cache is left unchanged. -/
theorem storeResponse_failure_nonfatal :
    ∀ (decode : String → Option HTTPResponse) (cache : Cache) (key : String)
      (responseString : String) (respData : HTTPResponse),
      cacheLookup cache key = none →
      decode responseString = some respData →
      sendRecordOf respData ∈
          (handleRequest decode cache key (Except.ok responseString) false).1 ∧
      Act.storeFailLog ∈
          (handleRequest decode cache key (Except.ok responseString) false).1 ∧
      (handleRequest decode cache key (Except.ok responseString) false).2 =
        cache := by
  intro decode cache key responseString respData hc hd
  simp [handleRequest, hc, hd]

/-- Witness for C7 at a concrete input: empty cache, a generated string
that decodes to an empty record, failing store; the record is still
sent. -/
theorem storeResponse_failure_nonfatal_witness :
    sendRecordOf ⟨[("Server", "nginx")], "ok"⟩ ∈
        (handleRequest
          (fun s => if s = "gen" then some ⟨[("Server", "nginx")], "ok"⟩ else none)
          [] "k" (Except.ok "gen") false).1 ∧
    Act.storeFailLog ∈
        (handleRequest
          (fun s => if s = "gen" then some ⟨[("Server", "nginx")], "ok"⟩ else none)
          [] "k" (Except.ok "gen") false).1 ∧
    (handleRequest
          (fun s => if s = "gen" then some ⟨[("Server", "nginx")], "ok"⟩ else none)
          [] "k" (Except.ok "gen") false).2 = [] :=
  storeResponse_failure_nonfatal
    (fun s => if s = "gen" then some ⟨[("Server", "nginx")], "ok"⟩ else none)
    [] "k" "gen" ⟨[("Server", "nginx")], "ok"⟩ (by decide) (by decide)

/-- C10 -- Poisoned cache: after a miss, the generated string is stored
under the request's key before the parse attempt, so when the parse
then fails the client gets the 500 reply while the unparseable payload
stays cached; any later request with the same fingerprint key hits the
cache, fails the same parse, and receives the 500 again with no new
Generation Collaborator call. -/
theorem handleRequest_cache_poisoning :
    ∀ (decode : String → Option HTTPResponse) (cache : Cache) (key : String)
      (responseString : String) (genResult2 : Except String String)
      (storeOk2 : Bool),
      cacheLookup cache key = none →
      decode responseString = none →
      (handleRequest decode cache key (Except.ok responseString) true).1 =
          [Act.cacheMiss, Act.genCall, Act.cacheStore key responseString,
           internalServerError] ∧
      cacheLookup
          (handleRequest decode cache key (Except.ok responseString) true).2
          key = some responseString ∧
      (handleRequest decode
          (handleRequest decode cache key (Except.ok responseString) true).2
          key genResult2 storeOk2).1 = [Act.cacheHit, internalServerError] ∧
      Act.genCall ∉
        (handleRequest decode
          (handleRequest decode cache key (Except.ok responseString) true).2
          key genResult2 storeOk2).1 ∧
      (handleRequest decode
          (handleRequest decode cache key (Except.ok responseString) true).2
          key genResult2 storeOk2).2 =
        (handleRequest decode cache key (Except.ok responseString) true).2 := by
  intro decode cache key responseString genResult2 storeOk2 hc hd
  have hsecond :
      cacheLookup (cacheInsert cache key responseString) key =
        some responseString := by
    simp [cacheInsert, cacheLookup]
  refine ⟨?_, ?_, ?_, ?_, ?_⟩ <;>
    simp [handleRequest, hc, hd, hsecond, cacheInsert, cacheLookup,
      internalServerError]

/-- Witness for C10 at a concrete input: empty cache, a generation
reply `"oops not json"` that never parses. -/
theorem handleRequest_cache_poisoning_witness :
    (handleRequest (fun _ => none) [] "k" (Except.ok "oops not json") true).1 =
        [Act.cacheMiss, Act.genCall, Act.cacheStore "k" "oops not json",
         internalServerError] ∧
    cacheLookup
        (handleRequest (fun _ => none) [] "k" (Except.ok "oops not json") true).2
        "k" = some "oops not json" ∧
    (handleRequest (fun _ => none)
        (handleRequest (fun _ => none) [] "k" (Except.ok "oops not json") true).2
        "k" (Except.ok "second") false).1 = [Act.cacheHit, internalServerError] ∧
    Act.genCall ∉
      (handleRequest (fun _ => none)
        (handleRequest (fun _ => none) [] "k" (Except.ok "oops not json") true).2
        "k" (Except.ok "second") false).1 ∧
    (handleRequest (fun _ => none)
        (handleRequest (fun _ => none) [] "k" (Except.ok "oops not json") true).2
        "k" (Except.ok "second") false).2 =
      (handleRequest (fun _ => none) [] "k" (Except.ok "oops not json") true).2 :=
  handleRequest_cache_poisoning (fun _ => none) [] "k" "oops not json"
    (Except.ok "second") false (by decide) (by decide)

/-! ## The sessionizer

`Sessionizer.Process` is called from the logger's `commonFields` but its
body is not among the provided source files, so it is modelled from the
specification's contract. -/

/-- One session-store entry: the current identifier for a source IP and
when that IP was last seen. -/
structure SessionEntry where
  sessionID : String
  lastSeen : Nat
deriving DecidableEq, Repr

/-- First-match lookup in the session store. -/
def sessionLookup : List (String × SessionEntry) → String → Option SessionEntry
  | [], _ => none
  | (ip, entry) :: rest, srcIP =>
    if ip = srcIP then some entry else sessionLookup rest srcIP

/-- Modelled from the spec: `Sessionizer.Process(sourceIP, now)` -- the
body of the sessionizer is not among the provided sources.  Per the
spec, if no entry exists for the IP, or `now - lastSeen` exceeds the
inactivity window, a freshly generated random identifier is assigned
and `lastSeen` set to `now`; otherwise the existing identifier is
returned and `lastSeen` refreshed.  The freshly drawn random
identifier enters as the argument `freshID`; timestamps are modelled
as natural numbers with `now` at or after `lastSeen`. -/
def sessionizerProcess (window : Nat) (table : List (String × SessionEntry))
    (srcIP : String) (now : Nat) (freshID : String) :
    String × List (String × SessionEntry) :=
  match sessionLookup table srcIP with
  | none => (freshID, (srcIP, ⟨freshID, now⟩) :: table)
  | some entry =>
    if now - entry.lastSeen > window then
      (freshID, (srcIP, ⟨freshID, now⟩) :: table)
    else
      (entry.sessionID, (srcIP, ⟨entry.sessionID, now⟩) :: table)

/-- C5 -- Session window: a call within the inactivity window returns
the stored identifier and refreshes `lastSeen` to `now`; a call with
no entry, or after the window has elapsed, returns the freshly drawn
identifier (which, being freshly drawn, differs from the previous one)
and records `lastSeen = now`. -/
theorem sessionizerProcess_window :
    ∀ (window : Nat) (table : List (String × SessionEntry)) (srcIP : String)
      (now : Nat) (freshID : String),
      (∀ entry, sessionLookup table srcIP = some entry →
        now - entry.lastSeen ≤ window →
        (sessionizerProcess window table srcIP now freshID).1 =
            entry.sessionID ∧
        sessionLookup (sessionizerProcess window table srcIP now freshID).2
            srcIP = some ⟨entry.sessionID, now⟩) ∧
      (sessionLookup table srcIP = none →
        (sessionizerProcess window table srcIP now freshID).1 = freshID ∧
        sessionLookup (sessionizerProcess window table srcIP now freshID).2
            srcIP = some ⟨freshID, now⟩) ∧
      (∀ entry, sessionLookup table srcIP = some entry →
        now - entry.lastSeen > window →
        (sessionizerProcess window table srcIP now freshID).1 = freshID ∧
        (freshID ≠ entry.sessionID →
          (sessionizerProcess window table srcIP now freshID).1 ≠
            entry.sessionID) ∧
        sessionLookup (sessionizerProcess window table srcIP now freshID).2
            srcIP = some ⟨freshID, now⟩) := by
  intro window table srcIP now freshID
  refine ⟨fun entry hl hin => ?_, fun hl => ?_, fun entry hl hout => ?_⟩
  · have hout : ¬(now - entry.lastSeen > window) := by omega
    simp [sessionizerProcess, hl, hout, sessionLookup]
  · simp [sessionizerProcess, hl, sessionLookup]
  · simp [sessionizerProcess, hl, hout, sessionLookup]

/-- Witness for C5 at concrete inputs: with a 60-unit window and an
entry last seen at time 100, a call at time 150 keeps the identifier
`"sid-1"`, and a call at time 200 (window elapsed) switches to the
fresh identifier `"sid-2"`. -/
theorem sessionizerProcess_window_witness :
    (sessionizerProcess 60 [("203.0.113.7", ⟨"sid-1", 100⟩)] "203.0.113.7" 150
        "sid-2").1 = "sid-1" ∧
    (sessionizerProcess 60 [("203.0.113.7", ⟨"sid-1", 100⟩)] "203.0.113.7" 200
        "sid-2").1 = "sid-2" ∧
    (sessionizerProcess 60 [("203.0.113.7", ⟨"sid-1", 100⟩)] "203.0.113.7" 200
        "sid-2").1 ≠ "sid-1" :=
  ⟨((sessionizerProcess_window 60 [("203.0.113.7", ⟨"sid-1", 100⟩)]
      "203.0.113.7" 150 "sid-2").1 ⟨"sid-1", 100⟩ (by decide) (by decide)).1,
   ((sessionizerProcess_window 60 [("203.0.113.7", ⟨"sid-1", 100⟩)]
      "203.0.113.7" 200 "sid-2").2.2 ⟨"sid-1", 100⟩ (by decide) (by decide)).1,
   ((sessionizerProcess_window 60 [("203.0.113.7", ⟨"sid-1", 100⟩)]
      "203.0.113.7" 200 "sid-2").2.2 ⟨"sid-1", 100⟩ (by decide)
        (by decide)).2.1 (by decide)⟩

/-! ## The listener manager (`server.go`: `startServers`,
`startTLSServer`, `startHTTPServer`)

Per-binding startup runs in an error group; `g.Wait()` returns `nil`
only when every member returned `nil`, and otherwise one of the
returned errors, so startup as a whole fails exactly when some binding
fails.  The outcome of the operating-system bind/serve step for a
validated binding enters as the oracle `bindErr` (`none` means the
listener is up). -/

/-- `PortConfig`: one configured port binding. -/
structure PortConfig where
  Port : Nat
  Protocol : String
  TLSProfile : String
deriving DecidableEq, Repr

/-- `TLSConfig`: a named TLS profile's certificate and key paths. -/
structure TLSConfig where
  Certificate : String
  Key : String
deriving DecidableEq, Repr

/-- The app configuration relevant to startup: the port bindings and the
named TLS profiles (a Go map, modelled as an association list). -/
structure Config where
  Ports : List PortConfig
  TLS : List (String × TLSConfig)

/-- First-match lookup of a named TLS profile. -/
def tlsLookup : List (String × TLSConfig) → String → Option TLSConfig
  | [], _ => none
  | (name, t) :: rest, ref => if name = ref then some t else tlsLookup rest ref

/-- `server.go` `startTLSServer`: reject an unset profile name, then an
unresolvable or incomplete profile (missing certificate or key path),
otherwise attempt to serve. -/
def startTLSServer (tlsMap : List (String × TLSConfig))
    (bindErr : PortConfig → Option String) (pc : PortConfig) : Option String :=
  if pc.TLSProfile = "" then
    some ("TLS profile is not configured for port " ++ toString pc.Port)
  else
    match tlsLookup tlsMap pc.TLSProfile with
    | none => some ("TLS profile is incomplete for port " ++ toString pc.Port)
    | some tlsConfig =>
      if tlsConfig.Certificate = "" ∨ tlsConfig.Key = "" then
        some ("TLS profile is incomplete for port " ++ toString pc.Port)
      else bindErr pc

/-- `server.go` `startHTTPServer`: attempt to serve plain HTTP. -/
def startHTTPServer (bindErr : PortConfig → Option String)
    (pc : PortConfig) : Option String :=
  bindErr pc

/-- The body of the per-binding goroutine in `startServers`: dispatch on
the protocol tag, rejecting anything but `"TLS"` and `"HTTP"`. -/
def startOnePort (tlsMap : List (String × TLSConfig))
    (bindErr : PortConfig → Option String) (pc : PortConfig) : Option String :=
  match pc.Protocol with
  | "TLS" => startTLSServer tlsMap bindErr pc
  | "HTTP" => startHTTPServer bindErr pc
  | _ => some ("unknown protocol for port " ++ toString pc.Port)

/-- The error-group wait: `none` only when every binding started, else
one of the binding errors. -/
def startServersLoop (tlsMap : List (String × TLSConfig))
    (bindErr : PortConfig → Option String) : List PortConfig → Option String
  | [] => none
  | pc :: rest =>
    match startOnePort tlsMap bindErr pc with
    | some e => some e
    | none => startServersLoop tlsMap bindErr rest

/-- `server.go` `startServers`: start every configured binding and
return `g.Wait()`. -/
def startServers (cfg : Config) (bindErr : PortConfig → Option String) :
    Option String :=
  startServersLoop cfg.TLS bindErr cfg.Ports

/-- Helper: the wait loop succeeds iff every binding does. -/
theorem startServersLoop_eq_none (tlsMap : List (String × TLSConfig))
    (bindErr : PortConfig → Option String) :
    ∀ l : List PortConfig,
      startServersLoop tlsMap bindErr l = none ↔
        ∀ pc ∈ l, startOnePort tlsMap bindErr pc = none := by
  intro l
  induction l with
  | nil => simp [startServersLoop]
  | cons pc rest ih =>
    cases h : startOnePort tlsMap bindErr pc with
    | some e => simp [startServersLoop, h]
    | none => simp [startServersLoop, h, ih]

/-- Helper: an error the wait loop returns is one of the bindings'. -/
theorem startServersLoop_eq_some (tlsMap : List (String × TLSConfig))
    (bindErr : PortConfig → Option String) :
    ∀ (l : List PortConfig) (e : String),
      startServersLoop tlsMap bindErr l = some e →
        ∃ pc ∈ l, startOnePort tlsMap bindErr pc = some e := by
  intro l
  induction l with
  | nil => simp [startServersLoop]
  | cons pc rest ih =>
    intro e
    cases h : startOnePort tlsMap bindErr pc with
    | some e0 =>
      intro he
      have he' : e0 = e := by simpa [startServersLoop, h] using he
      exact ⟨pc, by simp, by rw [h, he']⟩
    | none =>
      intro he
      have he' : startServersLoop tlsMap bindErr rest = some e := by
        simpa [startServersLoop, h] using he
      rcases ih e he' with ⟨pc0, hmem, hpc0⟩
      exact ⟨pc0, by simp [hmem], hpc0⟩

/-- C6 -- All-or-nothing startup: startup succeeds iff every configured
binding starts; any error it reports is the error of one of the
bindings; a binding with an unrecognized protocol tag always fails;
and a TLS binding whose profile name is unset, unresolvable, or
lacking a certificate or key path always fails. -/
theorem startServers_all_or_nothing :
    ∀ (cfg : Config) (bindErr : PortConfig → Option String),
      (startServers cfg bindErr = none ↔
        ∀ pc ∈ cfg.Ports, startOnePort cfg.TLS bindErr pc = none) ∧
      (∀ e, startServers cfg bindErr = some e →
        ∃ pc ∈ cfg.Ports, startOnePort cfg.TLS bindErr pc = some e) ∧
      (∀ pc : PortConfig, pc.Protocol ≠ "TLS" → pc.Protocol ≠ "HTTP" →
        startOnePort cfg.TLS bindErr pc ≠ none) ∧
      (∀ pc : PortConfig, pc.Protocol = "TLS" →
        (pc.TLSProfile = "" ∨ tlsLookup cfg.TLS pc.TLSProfile = none ∨
          (∃ t, tlsLookup cfg.TLS pc.TLSProfile = some t ∧
            (t.Certificate = "" ∨ t.Key = ""))) →
        startOnePort cfg.TLS bindErr pc ≠ none) := by
  intro cfg bindErr
  refine ⟨startServersLoop_eq_none cfg.TLS bindErr cfg.Ports,
    fun e => startServersLoop_eq_some cfg.TLS bindErr cfg.Ports e,
    fun pc hTLS hHTTP => ?_, fun pc hTLS hbad => ?_⟩
  · unfold startOnePort
    split
    · exact absurd (by assumption) hTLS
    · exact absurd (by assumption) hHTTP
    · simp
  · unfold startOnePort
    rw [hTLS]
    rcases hbad with h0 | hnone | ⟨t, hsome, hmiss⟩
    · simp [startTLSServer, h0]
    · by_cases h0 : pc.TLSProfile = ""
      · simp [startTLSServer, h0]
      · simp [startTLSServer, h0, hnone]
    · by_cases h0 : pc.TLSProfile = ""
      · simp [startTLSServer, h0]
      · simp [startTLSServer, h0, hsome, hmiss]

/-- Witness for C6 at a concrete configuration: a two-binding config
whose second binding uses the unknown protocol tag `"QUIC"` makes the
whole startup fail with that binding's error even though the first
binding binds fine. -/
theorem startServers_all_or_nothing_witness :
    startServers
        ⟨[⟨80, "HTTP", ""⟩, ⟨443, "QUIC", ""⟩], []⟩ (fun _ => none) ≠ none ∧
    startOnePort [] (fun _ => none) ⟨443, "QUIC", ""⟩ ≠ none := by
  have h := startServers_all_or_nothing
    ⟨[⟨80, "HTTP", ""⟩, ⟨443, "QUIC", ""⟩], []⟩ (fun _ => none)
  have hone : startOnePort [] (fun _ => none) ⟨443, "QUIC", ""⟩ ≠ none :=
    h.2.2.1 ⟨443, "QUIC", ""⟩ (by decide) (by decide)
  refine ⟨fun hnone => ?_, hone⟩
  exact hone ((h.1.mp hnone) ⟨443, "QUIC", ""⟩ (by decide))

/-! ## The event logger (`logger` package: `New`, `commonFields`,
`LogEvent`, `LogError`, `headerKeys`, `headersSortedSha256`,
`convertMap`)

A logrus fields map is modelled as a list of key/value string pairs.
`crypto/sha256` is the Go standard library; the hex-encoded digest
function enters as the opaque pure function `sha256Hex`.  The results
of `net.SplitHostPort(r.RemoteAddr)`, of the Enrichment Collaborator,
of `os.Hostname` and of the Sessionizer enter as inputs, exactly as
their values do in `commonFields`. -/

/-- Enrichment result for a source IP (`enrich.IPInfo` as used here). -/
structure SrcIPInfo where
  KnownScanner : String
  Host : String
deriving DecidableEq, Repr

/-- The generation backend's identifying configuration (`llm.Config` as
read by the logger; the numeric temperature enters in its rendered
form). -/
structure LLMConfig where
  Provider : String
  Model : String
  Temperature : String
deriving DecidableEq, Repr

/-- The request data `commonFields` reads. -/
structure RequestMeta where
  Method : String
  Proto : String
  RequestURI : String
  UserAgent : String
  Body : String
  Header : List (String × List String)
deriving DecidableEq, Repr

/-- `logger` `headerKeys`: the header names. -/
def headerKeys (headers : List (String × List String)) : List String :=
  headers.map (fun kv => kv.1)

/-- Compare two strings lexicographically by character. -/
def charListLe : List Char → List Char → Bool
  | [], _ => true
  | _ :: _, [] => false
  | a :: as, b :: bs => if a = b then charListLe as bs else decide (a < b)

/-- Insert into a list sorted by `charListLe`. -/
def insertSorted (x : String) : List String → List String
  | [] => [x]
  | y :: ys =>
    if charListLe x.data y.data then x :: y :: ys else y :: insertSorted x ys

/-- Go `sort.Strings`: ascending lexicographic sort. -/
def sortStrings : List String → List String
  | [] => []
  | x :: xs => insertSorted x (sortStrings xs)

/-- `logger` `headersSortedSha256`: digest of the comma-joined sorted
header names. -/
def headersSortedSha256 (sha256Hex : String → String)
    (hKeys : List String) : String :=
  sha256Hex (joinComma hKeys)

/-- `logger` `convertMap`: join each header's values with `", "`. -/
def convertMap (input : List (String × List String)) :
    List (String × String) :=
  input.map (fun kv => (kv.1, String.intercalate ", " kv.2))

/-- The enrichment tags: the known-scanner name when the lookup
succeeded and reported one (a failed lookup leaves the tags empty). -/
def enrichTags (enrichResult : Option SrcIPInfo) : List String :=
  match enrichResult with
  | some info => if info.KnownScanner ≠ "" then [info.KnownScanner] else []
  | none => []

/-- The enrichment host name, blank when the lookup failed. -/
def enrichHost (enrichResult : Option SrcIPInfo) : String :=
  match enrichResult with
  | some info => info.Host
  | none => ""

/-- `logger` `commonFields`: the flat dot-delimited fields shared by
success and failure records, in source order, followed by the
flattened request headers. -/
def commonFields (srcIP srcPort : String) (enrichResult : Option SrcIPInfo)
    (sensorName sessionID : String) (sha256Hex : String → String)
    (r : RequestMeta) (port : String) : List (String × String) :=
  [("src_ip", srcIP),
   ("hostname", enrichHost enrichResult),
   ("src_port", srcPort),
   ("tags", joinComma (enrichTags enrichResult)),
   ("sensorName", sensorName),
   ("dest_port", port),
   ("session", sessionID),
   ("request.method", r.Method),
   ("request.protocol", r.Proto),
   ("request.requestURI", r.RequestURI),
   ("request.userAgent", r.UserAgent),
   ("request.body", r.Body),
   ("request.bodySha256", sha256Hex r.Body),
   ("request.headers.sorted", joinComma (sortStrings (headerKeys r.Header))),
   ("request.headers.sortedSha256",
     headersSortedSha256 sha256Hex (sortStrings (headerKeys r.Header)))]
  ++ (convertMap r.Header).map (fun kv => ("request.headers." ++ kv.1, kv.2))

/-- `logger` `LogEvent`: a successful-response record -- the common
fields, the flattened response headers, the response body, and the
generation backend's metadata. -/
def LogEvent (srcIP srcPort : String) (enrichResult : Option SrcIPInfo)
    (sensorName sessionID : String) (sha256Hex : String → String)
    (r : RequestMeta) (port : String) (resp : HTTPResponse)
    (respSource : String) (cfg : LLMConfig) : List (String × String) :=
  commonFields srcIP srcPort enrichResult sensorName sessionID sha256Hex r port
  ++ resp.Headers.map (fun kv => ("response.headers." ++ kv.1, kv.2))
  ++ [("response.body", resp.Body),
      ("response.metadata.generationSource", respSource),
      ("response.metadata.provider", cfg.Provider),
      ("response.metadata.model", cfg.Model),
      ("response.metadata.temperature", cfg.Temperature)]

/-- `logger` `LogError`: a failed-response record -- the common fields,
the classified error fields, and the generation backend's metadata. -/
def LogError (srcIP srcPort : String) (enrichResult : Option SrcIPInfo)
    (sensorName sessionID : String) (sha256Hex : String → String)
    (r : RequestMeta) (port : String) (errMsg resp : String)
    (cfg : LLMConfig) : List (String × String) :=
  commonFields srcIP srcPort enrichResult sensorName sessionID sha256Hex r port
  ++ [("type", (errorFields errMsg resp).type),
      ("msg", (errorFields errMsg resp).msg),
      ("invalidResponse", (errorFields errMsg resp).invalidResponse)]
  ++ [("response.metadata.provider", cfg.Provider),
      ("response.metadata.model", cfg.Model),
      ("response.metadata.temperature", cfg.Temperature)]

/-- Go's `time.RFC3339` layout constant. -/
def timeRFC3339 : String := "2006-01-02T15:04:05Z07:00"

/-- The logrus JSON formatter configuration installed by `logger.New`:
one JSON object per record with an RFC3339 timestamp stored under the
key `"timestamp"`. -/
structure JSONFormatterConfig where
  TimestampFormat : String
  TimeFieldKey : String
deriving DecidableEq, Repr

/-- `logger` `New`: the event logger's formatter settings. -/
def eventLoggerFormatter : JSONFormatterConfig :=
  ⟨timeRFC3339, "timestamp"⟩

/-- The fixed (non-header) field keys of a success record, in source
order. -/
def successRecordFixedKeys : List String :=
  ["src_ip", "hostname", "src_port", "tags", "sensorName", "dest_port",
   "session", "request.method", "request.protocol", "request.requestURI",
   "request.userAgent", "request.body", "request.bodySha256",
   "request.headers.sorted", "request.headers.sortedSha256"]

/-- C8 -- Event record contents: every record (success or failure)
contains the source IP and port, destination port, session id,
enrichment tags, request method/protocol/URI/user-agent/body, the
request-body hash, and the sorted header-name list with its hash
(conjuncts 1-14); a success record additionally carries the full
response body, every response header under the flat
`response.headers.` namespace, and the backend's
provider/model/temperature (conjuncts 15-17); the success record's
keys are exactly a flat dot-delimited key list (conjunct 18); and the
event logger is configured to stamp each JSON record with an RFC3339
timestamp under the key `timestamp` (conjunct 19). -/
theorem logEvent_record_fields :
    ∀ (srcIP srcPort : String) (enrichResult : Option SrcIPInfo)
      (sensorName sessionID : String) (sha256Hex : String → String)
      (r : RequestMeta) (port : String) (resp : HTTPResponse)
      (respSource errMsg rawResp : String) (cfg : LLMConfig),
      ("src_ip", srcIP) ∈
          commonFields srcIP srcPort enrichResult sensorName sessionID
            sha256Hex r port ∧
      ("src_port", srcPort) ∈
          commonFields srcIP srcPort enrichResult sensorName sessionID
            sha256Hex r port ∧
      ("dest_port", port) ∈
          commonFields srcIP srcPort enrichResult sensorName sessionID
            sha256Hex r port ∧
      ("session", sessionID) ∈
          commonFields srcIP srcPort enrichResult sensorName sessionID
            sha256Hex r port ∧
      ("tags", joinComma (enrichTags enrichResult)) ∈
          commonFields srcIP srcPort enrichResult sensorName sessionID
            sha256Hex r port ∧
      ("request.method", r.Method) ∈
          commonFields srcIP srcPort enrichResult sensorName sessionID
            sha256Hex r port ∧
      ("request.protocol", r.Proto) ∈
          commonFields srcIP srcPort enrichResult sensorName sessionID
            sha256Hex r port ∧
      ("request.requestURI", r.RequestURI) ∈
          commonFields srcIP srcPort enrichResult sensorName sessionID
            sha256Hex r port ∧
      ("request.userAgent", r.UserAgent) ∈
          commonFields srcIP srcPort enrichResult sensorName sessionID
            sha256Hex r port ∧
      ("request.body", r.Body) ∈
          commonFields srcIP srcPort enrichResult sensorName sessionID
            sha256Hex r port ∧
      ("request.bodySha256", sha256Hex r.Body) ∈
          commonFields srcIP srcPort enrichResult sensorName sessionID
            sha256Hex r port ∧
      ("request.headers.sorted",
          joinComma (sortStrings (headerKeys r.Header))) ∈
          commonFields srcIP srcPort enrichResult sensorName sessionID
            sha256Hex r port ∧
      ("request.headers.sortedSha256",
          sha256Hex (joinComma (sortStrings (headerKeys r.Header)))) ∈
          commonFields srcIP srcPort enrichResult sensorName sessionID
            sha256Hex r port ∧
      (∀ kv ∈ commonFields srcIP srcPort enrichResult sensorName sessionID
            sha256Hex r port,
        kv ∈ LogEvent srcIP srcPort enrichResult sensorName sessionID
            sha256Hex r port resp respSource cfg ∧
        kv ∈ LogError srcIP srcPort enrichResult sensorName sessionID
            sha256Hex r port errMsg rawResp cfg) ∧
      ("response.body", resp.Body) ∈
          LogEvent srcIP srcPort enrichResult sensorName sessionID
            sha256Hex r port resp respSource cfg ∧
      (∀ kv ∈ resp.Headers,
        ("response.headers." ++ kv.1, kv.2) ∈
          LogEvent srcIP srcPort enrichResult sensorName sessionID
            sha256Hex r port resp respSource cfg) ∧
      (("response.metadata.provider", cfg.Provider) ∈
          LogEvent srcIP srcPort enrichResult sensorName sessionID
            sha256Hex r port resp respSource cfg ∧
       ("response.metadata.model", cfg.Model) ∈
          LogEvent srcIP srcPort enrichResult sensorName sessionID
            sha256Hex r port resp respSource cfg ∧
       ("response.metadata.temperature", cfg.Temperature) ∈
          LogEvent srcIP srcPort enrichResult sensorName sessionID
            sha256Hex r port resp respSource cfg) ∧
      (LogEvent srcIP srcPort enrichResult sensorName sessionID
            sha256Hex r port resp respSource cfg).map (fun kv => kv.1) =
        successRecordFixedKeys
          ++ (headerKeys r.Header).map (fun k => "request.headers." ++ k)
          ++ resp.Headers.map (fun kv => "response.headers." ++ kv.1)
          ++ ["response.body", "response.metadata.generationSource",
              "response.metadata.provider", "response.metadata.model",
              "response.metadata.temperature"] ∧
      (eventLoggerFormatter.TimestampFormat = timeRFC3339 ∧
       eventLoggerFormatter.TimeFieldKey = "timestamp") := by
  intro srcIP srcPort enrichResult sensorName sessionID sha256Hex r port resp
    respSource errMsg rawResp cfg
  refine ⟨by simp [commonFields], by simp [commonFields], by simp [commonFields],
    by simp [commonFields], by simp [commonFields], by simp [commonFields],
    by simp [commonFields], by simp [commonFields], by simp [commonFields],
    by simp [commonFields], by simp [commonFields], by simp [commonFields],
    by simp [commonFields, headersSortedSha256], ?_, ?_, ?_, ?_, ?_, ⟨rfl, rfl⟩⟩
  · intro kv hkv
    constructor
    · simp [LogEvent, List.mem_append, hkv]
    · simp [LogError, List.mem_append, hkv]
  · simp [LogEvent, List.mem_append]
  · intro kv hkv
    have hmap : ("response.headers." ++ kv.1, kv.2) ∈
        resp.Headers.map (fun kv => ("response.headers." ++ kv.1, kv.2)) :=
      List.mem_map_of_mem _ hkv
    simp [LogEvent, List.mem_append]
    right; left
    simpa using hmap
  · refine ⟨?_, ?_, ?_⟩ <;> simp [LogEvent, List.mem_append]
  · simp [LogEvent, commonFields, convertMap, successRecordFixedKeys,
      headerKeys, headersSortedSha256, List.map_append, List.map_map,
      Function.comp]
    rfl

/-- Witness for C8 at concrete inputs: a GET probe with one header and a
one-header synthesized response; the response header appears in the
success record under the `response.headers.` namespace. -/
theorem logEvent_record_fields_witness :
    ("response.headers.Content-Type", "text/plain") ∈
      LogEvent "203.0.113.7" "55555" (some ⟨"zgrab", "scanner.example"⟩)
        "sensor-1" "sid-1" (fun s => s)
        ⟨"GET", "HTTP/1.1", "/etc/passwd", "curl/8.0", "",
          [("User-Agent", ["curl/8.0"])]⟩ "80"
        ⟨[("Content-Type", "text/plain")], "root:x:0:0"⟩ "llm"
        ⟨"openai", "gpt-4o", "1"⟩ := by
  obtain ⟨-, -, -, -, -, -, -, -, -, -, -, -, -, -, -, h16, -⟩ :=
    logEvent_record_fields "203.0.113.7" "55555"
      (some ⟨"zgrab", "scanner.example"⟩) "sensor-1" "sid-1" (fun s => s)
      ⟨"GET", "HTTP/1.1", "/etc/passwd", "curl/8.0", "",
        [("User-Agent", ["curl/8.0"])]⟩ "80"
      ⟨[("Content-Type", "text/plain")], "root:x:0:0"⟩ "llm" "err" "raw"
      ⟨"openai", "gpt-4o", "1"⟩
  exact h16 ("Content-Type", "text/plain") (by decide)

/-! ## Shutdown (`server.go` `listenForShutdownSignals`)

The handler registers for `os.Interrupt` (SIGINT) and SIGTERM; on
receipt it calls `Shutdown` on every server in the registry and then
exits with status 0.  `http.Server.Shutdown` is the Go standard
library; per its documented contract it stops the listener from
accepting new connections and waits -- bounded by the caller's context
deadline -- for in-flight requests to finish, which is modelled as the
state transition below. -/

/-- The observable state of one listener: its port, whether it still
accepts new connections, and how many requests are in flight. -/
structure ServerState where
  port : Nat
  accepting : Bool
  inflight : Nat
deriving DecidableEq, Repr

/-- Modelled from the spec: `http.Server.Shutdown(ctx)` -- not repository
code -- stops accepting new connections and drains in-flight requests
within the shutdown deadline. -/
def serverShutdown (s : ServerState) : ServerState :=
  ⟨s.port, false, 0⟩

/-- The interruption signals the handler registers
(`signal.Notify(sig, os.Interrupt, syscall.SIGTERM)`). -/
def shutdownSignals : List String := ["SIGINT", "SIGTERM"]

/-- `server.go` `listenForShutdownSignals`, after a registered signal
arrives: shut down every server in the registry, then `os.Exit(0)`.
The result is the final listener states and the process exit code. -/
def listenForShutdownSignals (servers : List ServerState) :
    List ServerState × Nat :=
  (servers.map serverShutdown, 0)

/-- C9 -- Graceful shutdown: both SIGINT and SIGTERM are registered as
triggers; after the signal every listener in the registry has stopped
accepting new connections and has drained its in-flight requests (the
drain bounded by the shutdown context per `Shutdown`'s contract), the
set of listeners shut down is exactly the registry, and the process
exit status is 0. -/
theorem shutdown_graceful :
    ∀ servers : List ServerState,
      (∀ s ∈ (listenForShutdownSignals servers).1,
        s.accepting = false ∧ s.inflight = 0) ∧
      (listenForShutdownSignals servers).1.map (fun s => s.port) =
        servers.map (fun s => s.port) ∧
      (listenForShutdownSignals servers).2 = 0 ∧
      "SIGINT" ∈ shutdownSignals ∧ "SIGTERM" ∈ shutdownSignals := by
  intro servers
  refine ⟨?_, ?_, rfl, by simp [shutdownSignals], by simp [shutdownSignals]⟩
  · intro s hs
    simp only [listenForShutdownSignals, List.mem_map] at hs
    rcases hs with ⟨s0, -, rfl⟩
    exact ⟨rfl, rfl⟩
  · simp [listenForShutdownSignals, List.map_map, serverShutdown,
      Function.comp]

/-- Witness for C9 at a concrete registry of two listeners, one with
three requests in flight: its post-shutdown state accepts nothing and
is drained. -/
theorem shutdown_graceful_witness :
    (⟨80, false, 0⟩ : ServerState).accepting = false ∧
    (⟨80, false, 0⟩ : ServerState).inflight = 0 :=
  (shutdown_graceful [⟨80, true, 3⟩, ⟨443, true, 0⟩]).1
    ⟨80, false, 0⟩ (by decide)
